import Mathlib

/-!
# Front-TREKO-G-Estoque: the product manager of `src/App.jsx`

A shallow embedding of the two stateful components of `App.jsx`:

* `LoginForm` (lines 14-107) with its `handleSubmit`;
* `GerenciadorDeProdutos` (lines 131-326) with `fetchProdutos`,
  `produtosFiltrados`, `handleFormChange`, `handleSubmit`, `handleDelete`,
  `iniciarEdicao` and `cancelarEdicao`.

React state becomes a record; every handler is a function from the state in
which it was invoked (the values its closure captured) and the answer of the
remote store to the next state, together with the list of requests it issued.
A handler runs to completion before the next event is handled, which is the
"one outstanding request per user action" reading of the component.

The JavaScript built-ins `parseFloat` and `String.prototype.toLowerCase` are
not part of the repository; they are parameters of the definitions that call
them.
-/

namespace Treko

/-! ## JavaScript values -/

/-- A JavaScript number: `NaN`, a finite value or one of the two infinities.
Every finite double is a rational, so finite values are carried as rationals;
`0` and `-0` are not told apart (both are falsy and both are `<= 0`). -/
inductive JSNum where
  | nan
  | fin (q : ℚ)
  | posInf
  | negInf
  deriving DecidableEq

namespace JSNum

/-- Truthiness of a number: `NaN` and zero are falsy. -/
def truthy : JSNum → Bool
  | nan => false
  | fin q => decide (q ≠ 0)
  | posInf => true
  | negInf => true

/-- The expression `x || 0`. -/
def orZero (x : JSNum) : JSNum :=
  if x.truthy then x else fin 0

/-- The comparison `x <= 0`; any comparison with `NaN` is false. -/
def leZero : JSNum → Bool
  | nan => false
  | fin q => decide (q ≤ 0)
  | posInf => false
  | negInf => true

/-- The comparison `x > 0`. -/
def gtZero : JSNum → Bool
  | nan => false
  | fin q => decide (0 < q)
  | posInf => true
  | negInf => false

end JSNum

/-- The value held by a price field: absent, a text (what an `<input>` yields)
or a number (what the server's JSON yields). -/
inductive Valor where
  | undef
  | texto (s : String)
  | numero (x : JSNum)
  deriving DecidableEq

/-- Truthiness of an optional string: `undefined`, `null` and `''` are falsy. -/
def truthyStr : Option String → Bool
  | none => false
  | some s => decide (s ≠ "")

/-- The method `String.prototype.includes`: `t` occurs in `s` as a contiguous
run of characters. -/
def includes (s t : String) : Bool :=
  decide (t.data <:+: s.data)

/-! ## Data model -/

/-- A product record as the server returns it: `{id, nome, descricao, preco}`.
`nome` and `descricao` may be missing. -/
structure Produto where
  id : Nat
  nome : Option String
  descricao : Option String
  preco : Valor
  deriving DecidableEq

/-- The state `formData`: `{nome, descricao, preco}`. -/
structure FormData where
  nome : Option String
  descricao : Option String
  preco : Valor
  deriving DecidableEq

/-- The object `dadosProduto` sent to the server: the draft with its price
replaced by a number. -/
structure DadosProduto where
  nome : Option String
  descricao : Option String
  preco : JSNum
  deriving DecidableEq

/-- The body `err.response.data` of a rejected call. -/
structure CorpoErro where
  error : Option String
  message : Option String
  deriving DecidableEq

/-- The object `err.response`: present when the server answered with a status
outside 2xx. -/
structure RespostaErro where
  status : Nat
  data : Option CorpoErro
  deriving DecidableEq

/-- The object `err` caught after a rejected axios call. -/
structure Erro where
  response : Option RespostaErro
  request : Bool
  deriving DecidableEq

/-- The outcome of an awaited axios call: it resolves with `response.data` or
rejects with an error. -/
inductive Resultado (α : Type) where
  | ok (data : α)
  | falha (err : Erro)
  deriving DecidableEq

/-- A request put on the wire. -/
inductive Requisicao where
  | postLogin (codigo nome password : String)
  | getProdutos
  | postProdutos (dados : DadosProduto)
  | putProdutos (id : Nat) (dados : DadosProduto)
  | deleteProdutos (id : Nat)
  deriving DecidableEq

/-- The remote store as seen from the product manager: the answer to each
call of the axios instance `api`. -/
structure Api where
  get : Resultado (List Produto)
  post : DadosProduto → Resultado Produto
  put : Nat → DadosProduto → Resultado Produto
  delete : Nat → Resultado Unit

/-! ## LoginForm -/

/-- The state of `LoginForm` (lines 15-19). -/
structure LoginEstado where
  codigo : String
  nome : String
  password : String
  error : String
  isLoading : Bool
  deriving DecidableEq

/-- The outcome of one run of a `LoginForm` handler: the next state, whether
`onLogin(true)` was called, and the requests issued. -/
structure LoginSaida where
  estado : LoginEstado
  onLogin : Bool
  pedidos : List Requisicao
  deriving DecidableEq

namespace LoginForm

/-- The message computed in the `catch` block of lines 42-50. -/
def errorMessage (err : Erro) : String :=
  match err.response with
  | some r =>
    match r.data.bind (fun d => d.message) with
    | some m => if m ≠ "" then m else "Credenciais inválidas."
    | none => "Credenciais inválidas."
  | none =>
    if err.request then "Servidor não respondeu. O back-end está rodando?"
    else "Não foi possível conectar ao servidor."

/-- The handler `handleSubmit` of `LoginForm` (lines 21-54). -/
def handleSubmit (login : String → String → String → Resultado Unit)
    (s : LoginEstado) : LoginSaida :=
  if s.codigo = "" ∨ s.nome = "" ∨ s.password = "" then
    { estado := { s with error := "Por favor, preencha todos os campos.", isLoading := false },
      onLogin := false, pedidos := [] }
  else
    match login s.codigo s.nome s.password with
    | .ok _ =>
      { estado := { s with error := "", isLoading := false },
        onLogin := true,
        pedidos := [.postLogin s.codigo s.nome s.password] }
    | .falha err =>
      { estado := { s with error := errorMessage err, isLoading := false },
        onLogin := false,
        pedidos := [.postLogin s.codigo s.nome s.password] }

end LoginForm

/-! ## GerenciadorDeProdutos -/

/-- The state of `GerenciadorDeProdutos` (lines 132-137). -/
structure Estado where
  produtos : List Produto
  loading : Bool
  error : Option String
  formData : FormData
  produtoEditando : Option Produto
  termoBusca : String
  deriving DecidableEq

/-- The empty draft `{ nome: '', descricao: '', preco: '' }`. -/
def formVazio : FormData :=
  { nome := some "", descricao := some "", preco := .texto "" }

/-- The state on mount: the arguments of the six `useState` calls. -/
def estadoInicial : Estado :=
  { produtos := [], loading := true, error := none, formData := formVazio,
    produtoEditando := none, termoBusca := "" }

/-- The names of the three inputs of the form, the possible `e.target.name`. -/
inductive Campo where
  | nome
  | descricao
  | preco
  deriving DecidableEq

namespace GerenciadorDeProdutos

/-- The effect `fetchProdutos` run once on mount (lines 140-153). -/
def fetchProdutos (api : Api) (s : Estado) : Estado × List Requisicao :=
  match api.get with
  | .ok data =>
    ({ s with produtos := data, error := none, loading := false }, [.getProdutos])
  | .falha _ =>
    ({ s with error := some "Não foi possível carregar os produtos. Verifique o back-end.",
              loading := false }, [.getProdutos])

/-- The predicate passed to `filter` in lines 159-161. -/
def casaTermo (toLowerCase : String → String) (termoBusca : String) (p : Produto) : Bool :=
  (truthyStr p.nome &&
      (match p.nome with
       | some n => includes (toLowerCase n) (toLowerCase termoBusca)
       | none => false)) ||
  (truthyStr p.descricao &&
      (match p.descricao with
       | some d => includes (toLowerCase d) (toLowerCase termoBusca)
       | none => false))

/-- The memoised list `produtosFiltrados` (lines 156-163), as a function of
the two values it depends on. -/
def produtosFiltrados (toLowerCase : String → String) (produtos : List Produto)
    (termoBusca : String) : List Produto :=
  if termoBusca = "" then produtos
  else produtos.filter (casaTermo toLowerCase termoBusca)

/-- The handler `handleFormChange` (lines 165-168): overwrite the field named
by the input with the input's text. -/
def handleFormChange (name : Campo) (value : String) (s : Estado) : Estado :=
  match name with
  | .nome => { s with formData := { s.formData with nome := some value } }
  | .descricao => { s with formData := { s.formData with descricao := some value } }
  | .preco => { s with formData := { s.formData with preco := .texto value } }

/-- The function `cancelarEdicao` (lines 224-227). -/
def cancelarEdicao (s : Estado) : Estado :=
  { s with produtoEditando := none, formData := formVazio }

/-- The function `iniciarEdicao` (lines 214-222); scrolling is not modelled. -/
def iniciarEdicao (produto : Produto) (s : Estado) : Estado :=
  { s with
    produtoEditando := some produto,
    formData := { nome := produto.nome, descricao := produto.descricao,
                  preco := produto.preco } }

/-- The object `dadosProduto` of lines 172-175. -/
def dadosProduto (parseFloat : Valor → JSNum) (f : FormData) : DadosProduto :=
  { nome := f.nome, descricao := f.descricao, preco := (parseFloat f.preco).orZero }

/-- The message set in the `catch` block of `handleSubmit` (line 196):
`err.response?.data?.error || 'Erro ao salvar produto.'`. -/
def mensagemSalvar (err : Erro) : String :=
  match (err.response.bind (fun r => r.data)).bind (fun d => d.error) with
  | some m => if m ≠ "" then m else "Erro ao salvar produto."
  | none => "Erro ao salvar produto."

/-- The handler `handleSubmit` of the product form (lines 170-198). -/
def handleSubmit (parseFloat : Valor → JSNum) (api : Api) (s : Estado) :
    Estado × List Requisicao :=
  let dados := dadosProduto parseFloat s.formData
  if !truthyStr dados.nome || dados.preco.leZero then
    ({ s with error := some "Nome e Preço (maior que zero) são obrigatórios." }, [])
  else
    match s.produtoEditando with
    | some alvo =>
      match api.put alvo.id dados with
      | .ok data =>
        (cancelarEdicao
          { s with error := none,
                   produtos := s.produtos.map (fun p => if p.id = alvo.id then data else p) },
         [.putProdutos alvo.id dados])
      | .falha err =>
        ({ s with error := some (mensagemSalvar err) }, [.putProdutos alvo.id dados])
    | none =>
      match api.post dados with
      | .ok data =>
        (cancelarEdicao { s with error := none, produtos := data :: s.produtos },
         [.postProdutos dados])
      | .falha err =>
        ({ s with error := some (mensagemSalvar err) }, [.postProdutos dados])

/-- The handler `handleDelete` (lines 200-210); `confirm` is the answer of
`window.confirm`. -/
def handleDelete (confirm : Bool) (api : Api) (id : Nat) (s : Estado) :
    Estado × List Requisicao :=
  if confirm then
    match api.delete id with
    | .ok _ =>
      ({ s with produtos := s.produtos.filter (fun p => p.id ≠ id) }, [.deleteProdutos id])
    | .falha _ =>
      ({ s with error := some "Erro ao excluir produto." }, [.deleteProdutos id])
  else (s, [])

end GerenciadorDeProdutos

/-! ## Events -/

/-- A user event on the product manager together with the answers of its
environment (the remote store and the confirmation dialog). -/
inductive Acao where
  | iniciarEdicao (produto : Produto)
  | cancelarEdicao
  | handleFormChange (name : Campo) (value : String)
  | handleSubmit (api : Api)
  | handleDelete (confirm : Bool) (api : Api) (id : Nat)

/-- The state after the handler of one event has run. -/
def aplicar (parseFloat : Valor → JSNum) (s : Estado) : Acao → Estado
  | .iniciarEdicao produto => GerenciadorDeProdutos.iniciarEdicao produto s
  | .cancelarEdicao => GerenciadorDeProdutos.cancelarEdicao s
  | .handleFormChange name value => GerenciadorDeProdutos.handleFormChange name value s
  | .handleSubmit api => (GerenciadorDeProdutos.handleSubmit parseFloat api s).1
  | .handleDelete confirm api id => (GerenciadorDeProdutos.handleDelete confirm api id s).1

/-- The state after a sequence of events, handled one after the other. -/
def executar (parseFloat : Valor → JSNum) (s : Estado) (acoes : List Acao) : Estado :=
  acoes.foldl (aplicar parseFloat) s

open GerenciadorDeProdutos

/-! ## Derived definitions -/

/-- The call a valid submit issues: an update keyed by the edit target's id
when there is one, a create otherwise. -/
def chamadaSalvar (parseFloat : Valor → JSNum) (api : Api) (s : Estado) : Resultado Produto :=
  match s.produtoEditando with
  | some alvo => api.put alvo.id (dadosProduto parseFloat s.formData)
  | none => api.post (dadosProduto parseFloat s.formData)

/-- The test "the field contains the term as a substring after both are
lower-cased"; a missing field contains nothing. -/
def contemTermo (toLowerCase : String → String) (campo : Option String) (termo : String) :
    Bool :=
  match campo with
  | some c => includes (toLowerCase c) (toLowerCase termo)
  | none => false

/-- The filtered view as the specification words it: everything when the term
is empty, otherwise the products whose name or description contains the term,
case-insensitively, in the order of the collection. -/
def filtroEspecificado (toLowerCase : String → String) (produtos : List Produto)
    (termo : String) : List Produto :=
  if termo = "" then produtos
  else produtos.filter
    (fun p => contemTermo toLowerCase p.nome termo || contemTermo toLowerCase p.descricao termo)

/-! ## Sample data -/

/-- The product `{id: 1, nome: "Caneta", preco: 2.5}`. -/
def caneta : Produto :=
  { id := 1, nome := some "Caneta", descricao := none, preco := .numero (.fin (5 / 2)) }

/-- The product `{id: 2, nome: "Lapis", descricao: "Grafite HB", preco: 1}`. -/
def lapis : Produto :=
  { id := 2, nome := some "Lapis", descricao := some "Grafite HB", preco := .numero (.fin 1) }

/-- A sample of `parseFloat`: a number is read back as itself, the texts
`"2.5"`, `"3"`, `"0"` and `"-1"` as their values, every other text here as `NaN`. -/
def parseFloatAmostra : Valor → JSNum
  | .numero x => x
  | .texto s =>
    if s = "2.5" then .fin (5 / 2)
    else if s = "3" then .fin 3
    else if s = "0" then .fin 0
    else if s = "-1" then .fin (-1)
    else .nan
  | .undef => .nan

/-- Lower-casing of the ASCII letters, on which `toLowerCase` agrees with it. -/
def toLowerAscii (s : String) : String :=
  ⟨s.data.map Char.toLower⟩

/-- A store that accepts every call and answers a save with the record sent,
under the id given. -/
def apiAceita (novoId : Nat) : Api :=
  { get := .ok [caneta, lapis],
    post := fun d => .ok { id := novoId, nome := d.nome, descricao := d.descricao,
                           preco := .numero d.preco },
    put := fun id d => .ok { id := id, nome := d.nome, descricao := d.descricao,
                             preco := .numero d.preco },
    delete := fun _ => .ok () }

/-- A store that answers every call with the given status and body. -/
def apiRecusa (status : Nat) (corpo : Option CorpoErro) : Api :=
  let err : Erro := { response := some { status := status, data := corpo }, request := true }
  { get := .falha err, post := fun _ => .falha err, put := fun _ _ => .falha err,
    delete := fun _ => .falha err }

/-- A state with two products loaded, nothing being edited and an empty draft. -/
def estadoCarregado : Estado :=
  { produtos := [caneta, lapis], loading := false, error := none, formData := formVazio,
    produtoEditando := none, termoBusca := "" }

/-- The draft `{nome: "Borracha", descricao: "", preco: "3"}` typed into the
create form of `estadoCarregado`. -/
def estadoRascunho : Estado :=
  { estadoCarregado with
    formData := { nome := some "Borracha", descricao := some "", preco := .texto "3" } }

/-- The draft `{nome: "", descricao: "", preco: "abc"}` while `caneta` is being
edited. -/
def estadoInvalido : Estado :=
  { estadoCarregado with
    produtoEditando := some caneta,
    formData := { nome := some "", descricao := some "", preco := .texto "abc" } }

/-- The product `caneta` being edited, its name changed to "Caneta azul" and
its price typed as "3". -/
def estadoEditando : Estado :=
  { estadoCarregado with
    produtoEditando := some caneta,
    formData := { nome := some "Caneta azul", descricao := none, preco := .texto "3" } }

/-- A login form with its three fields filled in. -/
def loginPreenchido : LoginEstado :=
  { codigo := "007", nome := "Ana", password := "segredo", error := "", isLoading := false }

/-- A login service that rejects every attempt with HTTP 401 and the body
`{error: "E401", message: "Senha incorreta"}`. -/
def loginRecusa (_codigo _nome _password : String) : Resultado Unit :=
  .falha { response := some { status := 401,
                              data := some { error := some "E401",
                                             message := some "Senha incorreta" } },
           request := true }

/-! ## Auxiliary facts -/

theorem JSNum.gtZero_of_orZero_not_leZero (x : JSNum) (h : x.orZero.leZero = false) :
    x.gtZero = true := by
  cases x with
  | nan => simp [JSNum.orZero, JSNum.truthy, JSNum.leZero] at h
  | fin q =>
    by_cases hq : q = 0
    · simp [JSNum.orZero, JSNum.truthy, JSNum.leZero, hq] at h
    · simp [JSNum.orZero, JSNum.truthy, JSNum.leZero, hq] at h
      simp [JSNum.gtZero, h]
  | posInf => rfl
  | negInf => simp [JSNum.orZero, JSNum.truthy, JSNum.leZero] at h

theorem JSNum.orZero_leZero_of_nan_or_leZero (x : JSNum)
    (h : x = .nan ∨ x.leZero = true) : x.orZero.leZero = true := by
  rcases h with h | h
  · subst h; simp [JSNum.orZero, JSNum.truthy, JSNum.leZero]
  · cases x with
    | nan => simp [JSNum.leZero] at h
    | fin q =>
      by_cases hq : q = 0
      · simp [JSNum.orZero, JSNum.truthy, JSNum.leZero, hq]
      · simpa [JSNum.orZero, JSNum.truthy, JSNum.leZero, hq] using h
    | posInf => simp [JSNum.leZero] at h
    | negInf => simp [JSNum.orZero, JSNum.truthy, JSNum.leZero]

theorem JSNum.orZero_leZero_of_gtZero (x : JSNum) (h : x.gtZero = true) :
    x.orZero.leZero = false := by
  cases x with
  | nan => simp [JSNum.gtZero] at h
  | fin q =>
    have hq : 0 < q := by simpa [JSNum.gtZero] using h
    simp [JSNum.orZero, JSNum.truthy, JSNum.leZero, hq, hq.ne']
  | posInf => simp [JSNum.orZero, JSNum.truthy, JSNum.leZero]
  | negInf => simp [JSNum.gtZero] at h

/-- With a non-empty name and a parsed price above zero the guard of line 177
does not fire. -/
theorem guarda_falsa (parseFloat : Valor → JSNum) (f : FormData)
    (hnome : truthyStr f.nome = true) (hpreco : (parseFloat f.preco).gtZero = true) :
    (!truthyStr (dadosProduto parseFloat f).nome ||
      (dadosProduto parseFloat f).preco.leZero) = false := by
  have h := JSNum.orZero_leZero_of_gtZero _ hpreco
  simp [dadosProduto, hnome, h]

/-- A valid submit whose call is rejected only sets the error. -/
theorem handleSubmit_falha_estado (parseFloat : Valor → JSNum) (api : Api) (s : Estado)
    (err : Erro)
    (hnome : truthyStr s.formData.nome = true)
    (hpreco : (parseFloat s.formData.preco).gtZero = true)
    (hfalha : chamadaSalvar parseFloat api s = .falha err) :
    (handleSubmit parseFloat api s).1 = { s with error := some (mensagemSalvar err) } := by
  have hg := guarda_falsa parseFloat s.formData hnome hpreco
  cases halvo : s.produtoEditando with
  | none =>
    simp only [chamadaSalvar, halvo] at hfalha
    simp [handleSubmit, hg, halvo, hfalha]
  | some alvo =>
    simp only [chamadaSalvar, halvo] at hfalha
    simp [handleSubmit, hg, halvo, hfalha]

theorem mensagemSalvar_detalhe (err : Erro) (m : String)
    (h : (err.response.bind (fun r => r.data)).bind (fun d => d.error) = some m)
    (hm : m ≠ "") : mensagemSalvar err = m := by
  simp [mensagemSalvar, h, hm]

theorem mensagemSalvar_generica (err : Erro)
    (h : (err.response.bind (fun r => r.data)).bind (fun d => d.error) = none ∨
         (err.response.bind (fun r => r.data)).bind (fun d => d.error) = some "") :
    mensagemSalvar err = "Erro ao salvar produto." := by
  rcases h with h | h <;> simp [mensagemSalvar, h]

theorem getElem?_map_ite_of_ne {α : Type} (xs : List α) (c : α → Prop) [DecidablePred c]
    (d : α) (j : Nat) (h : ∀ x, xs[j]? = some x → ¬ c x) :
    (xs.map (fun p => if c p then d else p))[j]? = xs[j]? := by
  rw [List.getElem?_map]
  cases hx : xs[j]? with
  | none => rfl
  | some x => simp [h x hx]

theorem includes_vazio (t : String) (ht : t ≠ "") : includes "" t = false := by
  have hd : t.data ≠ [] := by
    intro h
    apply ht
    cases t
    simp_all
  simp [includes, hd]

theorem casaTermo_eq_contem (toLowerCase : String → String)
    (hlow : ∀ t, toLowerCase t = "" ↔ t = "") (termo : String) (ht : termo ≠ "")
    (p : Produto) :
    casaTermo toLowerCase termo p
      = (contemTermo toLowerCase p.nome termo || contemTermo toLowerCase p.descricao termo) := by
  have hlt : toLowerCase termo ≠ "" := fun h => ht ((hlow termo).mp h)
  have hv : toLowerCase "" = "" := (hlow "").mpr rfl
  have key : ∀ c : Option String,
      (truthyStr c && (match c with
        | some n => includes (toLowerCase n) (toLowerCase termo)
        | none => false)) = contemTermo toLowerCase c termo := by
    intro c
    cases c with
    | none => simp [truthyStr, contemTermo]
    | some n =>
      by_cases hn : n = ""
      · subst hn
        simp [truthyStr, contemTermo, hv, includes_vazio _ hlt]
      · simp [truthyStr, contemTermo, hn]
  unfold casaTermo
  rw [key p.nome, key p.descricao]

theorem toLowerAscii_vazio (t : String) : toLowerAscii t = "" ↔ t = "" := by
  cases t with
  | mk d =>
    constructor
    · intro h
      have h2 : d.map Char.toLower = [] := by
        have := congrArg String.data h
        simpa [toLowerAscii] using this
      have h3 : d = [] := by simpa using h2
      subst h3; rfl
    · intro h
      have h3 : d = [] := by
        have := congrArg String.data h
        simpa using this
      subst h3; rfl

/-! ## Claims -/

/-- C3: a create submit that passes validation and whose call succeeds issues
exactly one `POST /produtos`, puts the server-returned record in front of the
previous collection (which follows unchanged, so the length grows by one) and
leaves no edit target and an empty draft. -/
theorem handleSubmit_create_success (parseFloat : Valor → JSNum) (api : Api) (s : Estado)
    (data : Produto)
    (hnome : truthyStr s.formData.nome = true)
    (hpreco : (parseFloat s.formData.preco).gtZero = true)
    (halvo : s.produtoEditando = none)
    (hok : api.post (dadosProduto parseFloat s.formData) = .ok data) :
    (handleSubmit parseFloat api s).1.produtos = data :: s.produtos ∧
    (handleSubmit parseFloat api s).1.produtos.length = s.produtos.length + 1 ∧
    (handleSubmit parseFloat api s).1.produtoEditando = none ∧
    (handleSubmit parseFloat api s).1.formData = formVazio ∧
    (handleSubmit parseFloat api s).2 = [.postProdutos (dadosProduto parseFloat s.formData)] := by
  have hle : (dadosProduto parseFloat s.formData).preco.leZero = false := by
    cases hx : parseFloat s.formData.preco with
    | nan => simp [hx, JSNum.gtZero] at hpreco
    | fin q =>
      have hq : 0 < q := by simpa [hx, JSNum.gtZero] using hpreco
      simp [dadosProduto, hx, JSNum.orZero, JSNum.truthy, JSNum.leZero, hq, hq.ne']
    | posInf => simp [dadosProduto, hx, JSNum.orZero, JSNum.truthy, JSNum.leZero]
    | negInf => simp [hx, JSNum.gtZero] at hpreco
  have hn : truthyStr (dadosProduto parseFloat s.formData).nome = true := hnome
  simp [handleSubmit, hle, hn, halvo, hok, cancelarEdicao]

theorem handleSubmit_create_success_witness :
    (handleSubmit parseFloatAmostra (apiAceita 3) estadoRascunho).1.produtos
        = { id := 3, nome := some "Borracha", descricao := some "", preco := .numero (.fin 3) }
            :: [caneta, lapis] ∧
    (handleSubmit parseFloatAmostra (apiAceita 3) estadoRascunho).1.produtoEditando = none ∧
    (handleSubmit parseFloatAmostra (apiAceita 3) estadoRascunho).1.formData = formVazio := by
  have h := handleSubmit_create_success parseFloatAmostra (apiAceita 3) estadoRascunho
    { id := 3, nome := some "Borracha", descricao := some "", preco := .numero (.fin 3) }
    (by decide) (by simp [estadoRascunho, parseFloatAmostra, JSNum.gtZero]) rfl
    (by simp [estadoRascunho, parseFloatAmostra, apiAceita, dadosProduto, JSNum.orZero,
          JSNum.truthy])
  exact ⟨h.1, h.2.2.1, h.2.2.2.1⟩

/-- C4: when the draft's name is empty (or missing), or its price does not
parse (`NaN`), or parses to a number `<= 0`, `handleSubmit` issues no request,
sets the error to the combined message and leaves the collection, the edit
target and the draft as they were; conversely, whenever `handleSubmit` issues a
request the name is non-empty and the parsed price is `> 0`. -/
theorem handleSubmit_validation (parseFloat : Valor → JSNum) (api : Api) (s : Estado) :
    ((truthyStr s.formData.nome = false ∨ parseFloat s.formData.preco = .nan ∨
        (parseFloat s.formData.preco).leZero = true) →
      (handleSubmit parseFloat api s).2 = [] ∧
      (handleSubmit parseFloat api s).1.error
        = some "Nome e Preço (maior que zero) são obrigatórios." ∧
      (handleSubmit parseFloat api s).1.produtos = s.produtos ∧
      (handleSubmit parseFloat api s).1.produtoEditando = s.produtoEditando ∧
      (handleSubmit parseFloat api s).1.formData = s.formData) ∧
    ((handleSubmit parseFloat api s).2 ≠ [] →
      truthyStr s.formData.nome = true ∧ (parseFloat s.formData.preco).gtZero = true) := by
  constructor
  · intro h
    have hrej : (!truthyStr (dadosProduto parseFloat s.formData).nome ||
        (dadosProduto parseFloat s.formData).preco.leZero) = true := by
      rcases h with h | h
      · simp [dadosProduto, h]
      · have := JSNum.orZero_leZero_of_nan_or_leZero (parseFloat s.formData.preco) h
        simp [dadosProduto, this]
    simp [handleSubmit, hrej]
  · intro h
    by_cases hrej : (!truthyStr (dadosProduto parseFloat s.formData).nome ||
        (dadosProduto parseFloat s.formData).preco.leZero) = true
    · simp [handleSubmit, hrej] at h
    · simp only [Bool.or_eq_true, Bool.not_eq_true', not_or, Bool.not_eq_false,
        Bool.not_eq_true] at hrej
      exact ⟨hrej.1, JSNum.gtZero_of_orZero_not_leZero _ hrej.2⟩

theorem handleSubmit_validation_witness :
    (handleSubmit parseFloatAmostra (apiAceita 3) estadoInvalido).2 = [] ∧
    (handleSubmit parseFloatAmostra (apiAceita 3) estadoInvalido).1.error
      = some "Nome e Preço (maior que zero) são obrigatórios." ∧
    (handleSubmit parseFloatAmostra (apiAceita 3) estadoInvalido).1.produtos = [caneta, lapis] ∧
    (handleSubmit parseFloatAmostra (apiAceita 3) estadoInvalido).1.produtoEditando
      = some caneta ∧
    (handleSubmit parseFloatAmostra (apiAceita 3) estadoInvalido).1.formData
      = { nome := some "", descricao := some "", preco := .texto "abc" } ∧
    (truthyStr estadoRascunho.formData.nome = true ∧
      (parseFloatAmostra estadoRascunho.formData.preco).gtZero = true) :=
  have h1 := (handleSubmit_validation parseFloatAmostra (apiAceita 3) estadoInvalido).1
    (Or.inl (by decide))
  have h2 := (handleSubmit_validation parseFloatAmostra (apiAceita 3) estadoRascunho).2
    (by simp [handleSubmit, estadoRascunho, estadoCarregado, dadosProduto,
          parseFloatAmostra, JSNum.orZero, JSNum.truthy, JSNum.leZero, truthyStr, apiAceita]
        norm_num)
  ⟨h1.1, h1.2.1, h1.2.2.1, h1.2.2.2.1, h1.2.2.2.2, h2⟩

/-- C6: filtering is idempotent: applying `produtosFiltrados` with a term to
the list already filtered with that term gives the same list. -/
theorem produtosFiltrados_idempotent (toLowerCase : String → String)
    (produtos : List Produto) (termoBusca : String) :
    produtosFiltrados toLowerCase (produtosFiltrados toLowerCase produtos termoBusca) termoBusca
      = produtosFiltrados toLowerCase produtos termoBusca := by
  unfold produtosFiltrados
  by_cases h : termoBusca = ""
  · simp [h]
  · simp [h, List.filter_filter]

/-- C9: `handleDelete(id)` changes the collection only when the user confirms
and the call succeeds; then the result is the collection without the entries
of that id, the others kept in their order. When the user declines, no request
is issued and the state is unchanged; when the call fails, the collection is
unchanged and the error is set. -/
theorem handleDelete_frame (confirm : Bool) (api : Api) (id : Nat) (s : Estado) :
    (confirm = false → handleDelete confirm api id s = (s, [])) ∧
    (confirm = true → (handleDelete confirm api id s).2 = [.deleteProdutos id]) ∧
    (confirm = true → (∃ u, api.delete id = .ok u) →
      (handleDelete confirm api id s).1.produtos = s.produtos.filter (fun p => p.id ≠ id) ∧
      (∀ p ∈ (handleDelete confirm api id s).1.produtos, p.id ≠ id) ∧
      (∀ p, p ∈ (handleDelete confirm api id s).1.produtos ↔ p ∈ s.produtos ∧ p.id ≠ id) ∧
      List.Sublist (handleDelete confirm api id s).1.produtos s.produtos) ∧
    (confirm = true → (∃ err, api.delete id = .falha err) →
      (handleDelete confirm api id s).1.produtos = s.produtos ∧
      (handleDelete confirm api id s).1.error = some "Erro ao excluir produto.") ∧
    ((handleDelete confirm api id s).1.produtos ≠ s.produtos →
      confirm = true ∧ ∃ u, api.delete id = .ok u) := by
  refine ⟨?_, ?_, ?_, ?_, ?_⟩
  · intro h; simp [handleDelete, h]
  · intro h
    cases hd : api.delete id <;> simp [handleDelete, h, hd]
  · rintro h ⟨u, hu⟩
    simp [handleDelete, h, hu]
  · rintro h ⟨err, he⟩
    simp [handleDelete, h, he]
  · intro h
    cases confirm with
    | false => simp [handleDelete] at h
    | true =>
      cases hd : api.delete id with
      | ok u => exact ⟨rfl, u, rfl⟩
      | falha err => simp [handleDelete, hd] at h

theorem handleDelete_frame_witness :
    handleDelete false (apiAceita 3) 1 estadoCarregado = (estadoCarregado, []) ∧
    (handleDelete true (apiAceita 3) 1 estadoCarregado).2 = [.deleteProdutos 1] ∧
    (handleDelete true (apiAceita 3) 1 estadoCarregado).1.produtos = [lapis] ∧
    (handleDelete true (apiRecusa 500 none) 1 estadoCarregado).1.produtos = [caneta, lapis] ∧
    (handleDelete true (apiRecusa 500 none) 1 estadoCarregado).1.error
      = some "Erro ao excluir produto." :=
  have ha := handleDelete_frame true (apiAceita 3) 1 estadoCarregado
  have hr := handleDelete_frame true (apiRecusa 500 none) 1 estadoCarregado
  ⟨(handleDelete_frame false (apiAceita 3) 1 estadoCarregado).1 rfl,
   ha.2.1 rfl,
   ((ha.2.2.1 rfl ⟨(), rfl⟩).1).trans (by decide),
   (hr.2.2.2.1 rfl ⟨_, rfl⟩).1,
   (hr.2.2.2.1 rfl ⟨_, rfl⟩).2⟩

/-- C2: an update submit that passes validation and whose call succeeds issues
exactly one `PUT /produtos/{id}` keyed by the edit target's id; the resulting
collection has the same length, holds the server-returned record at every
position whose entry had the target's id and the old entry at every other
position, and the edit target is unset and the draft empty. When the ids of the
collection are pairwise distinct and the target's id occurs in it, exactly one
position is rewritten. -/
theorem handleSubmit_update_success (parseFloat : Valor → JSNum) (api : Api) (s : Estado)
    (alvo data : Produto)
    (hnome : truthyStr s.formData.nome = true)
    (hpreco : (parseFloat s.formData.preco).gtZero = true)
    (halvo : s.produtoEditando = some alvo)
    (hok : api.put alvo.id (dadosProduto parseFloat s.formData) = .ok data) :
    (handleSubmit parseFloat api s).2
      = [.putProdutos alvo.id (dadosProduto parseFloat s.formData)] ∧
    (handleSubmit parseFloat api s).1.produtos.length = s.produtos.length ∧
    (∀ (i : Nat) (p : Produto), s.produtos[i]? = some p →
      (handleSubmit parseFloat api s).1.produtos[i]?
        = some (if p.id = alvo.id then data else p)) ∧
    (handleSubmit parseFloat api s).1.produtoEditando = none ∧
    (handleSubmit parseFloat api s).1.formData = formVazio ∧
    ((s.produtos.map (fun p => p.id)).Nodup → (∃ p ∈ s.produtos, p.id = alvo.id) →
      ∃ i : Nat, i < s.produtos.length ∧
        (handleSubmit parseFloat api s).1.produtos[i]? = some data ∧
        ∀ j : Nat, j ≠ i → (handleSubmit parseFloat api s).1.produtos[j]? = s.produtos[j]?) := by
  have hg := guarda_falsa parseFloat s.formData hnome hpreco
  have hp : (handleSubmit parseFloat api s).1.produtos
      = s.produtos.map (fun p => if p.id = alvo.id then data else p) := by
    simp [handleSubmit, hg, halvo, hok, cancelarEdicao]
  refine ⟨?_, ?_, ?_, ?_, ?_, ?_⟩
  · simp [handleSubmit, hg, halvo, hok]
  · rw [hp, List.length_map]
  · intro i p hi
    rw [hp, List.getElem?_map, hi]; rfl
  · simp [handleSubmit, hg, halvo, hok, cancelarEdicao]
  · simp [handleSubmit, hg, halvo, hok, cancelarEdicao]
  · rintro hnd ⟨p, hmem, hid⟩
    obtain ⟨i, hi, hget⟩ := List.getElem_of_mem hmem
    refine ⟨i, hi, ?_, ?_⟩
    · rw [hp, List.getElem?_map, List.getElem?_eq_getElem hi, hget]; simp [hid]
    · intro j hj
      rw [hp]
      apply getElem?_map_ite_of_ne
      intro x hx hxid
      obtain ⟨hjlt, hxj⟩ := List.getElem?_eq_some.mp hx
      apply hj
      have hi2 : i < (s.produtos.map (fun p => p.id)).length := by simpa using hi
      have hj2 : j < (s.produtos.map (fun p => p.id)).length := by simpa using hjlt
      have heq : (s.produtos.map (fun p => p.id))[j] = (s.produtos.map (fun p => p.id))[i] := by
        simp [hxj, hget, hxid, hid]
      exact (List.Nodup.getElem_inj_iff hnd).mp heq

theorem handleSubmit_update_success_witness :
    (handleSubmit parseFloatAmostra (apiAceita 3) estadoEditando).1.produtos.length = 2 ∧
    (handleSubmit parseFloatAmostra (apiAceita 3) estadoEditando).1.produtoEditando = none ∧
    (handleSubmit parseFloatAmostra (apiAceita 3) estadoEditando).1.formData = formVazio ∧
    ∃ i : Nat, i < 2 ∧
      (handleSubmit parseFloatAmostra (apiAceita 3) estadoEditando).1.produtos[i]?
        = some { id := 1, nome := some "Caneta azul", descricao := none,
                 preco := .numero (.fin 3) } ∧
      ∀ j : Nat, j ≠ i →
        (handleSubmit parseFloatAmostra (apiAceita 3) estadoEditando).1.produtos[j]?
          = [caneta, lapis][j]? := by
  have h := handleSubmit_update_success parseFloatAmostra (apiAceita 3) estadoEditando caneta
    { id := 1, nome := some "Caneta azul", descricao := none, preco := .numero (.fin 3) }
    (by decide) (by simp [estadoEditando, parseFloatAmostra, JSNum.gtZero]) rfl
    (by simp [estadoEditando, parseFloatAmostra, apiAceita, dadosProduto, JSNum.orZero,
          JSNum.truthy, caneta])
  exact ⟨h.2.1, h.2.2.2.1, h.2.2.2.2.1,
    h.2.2.2.2.2 (by decide) ⟨caneta, by simp [estadoEditando, estadoCarregado], rfl⟩⟩

/-- C7, as the code refutes it: with `caneta` being edited and a valid draft,
an update call answered with HTTP 400 and the body `{message: "nome duplicado"}`
carries a server-provided detail, yet the error shown is the generic 'Erro ao
salvar produto.'; the collection, the edit target and the draft are kept. -/
theorem update_failure_ignores_message_detail :
    (handleSubmit parseFloatAmostra
        (apiRecusa 400 (some { error := none, message := some "nome duplicado" }))
        estadoEditando).2
      = [.putProdutos 1 { nome := some "Caneta azul", descricao := none, preco := .fin 3 }] ∧
    (handleSubmit parseFloatAmostra
        (apiRecusa 400 (some { error := none, message := some "nome duplicado" }))
        estadoEditando).1.error = some "Erro ao salvar produto." ∧
    (handleSubmit parseFloatAmostra
        (apiRecusa 400 (some { error := none, message := some "nome duplicado" }))
        estadoEditando).1.error ≠ some "nome duplicado" ∧
    (handleSubmit parseFloatAmostra
        (apiRecusa 400 (some { error := none, message := some "nome duplicado" }))
        estadoEditando).1.produtoEditando = some caneta := by
  have hst := handleSubmit_falha_estado parseFloatAmostra
    (apiRecusa 400 (some { error := none, message := some "nome duplicado" })) estadoEditando
    { response := some { status := 400,
                         data := some { error := none, message := some "nome duplicado" } },
      request := true }
    (by decide) (by simp [estadoEditando, parseFloatAmostra, JSNum.gtZero]) rfl
  refine ⟨?_, ?_, ?_, ?_⟩
  · simp [handleSubmit, estadoEditando, estadoCarregado, dadosProduto, parseFloatAmostra,
      JSNum.orZero, JSNum.truthy, JSNum.leZero, truthyStr, apiRecusa, caneta]
    norm_num
  · rw [hst]; rfl
  · rw [hst]; decide
  · rw [hst]; rfl

/-- C7, amended: when the create or update call of a valid submit is rejected,
the collection, the edit target and the draft are as before the submit, and
the error is the `error` field of the response body when that field is present
and non-empty and 'Erro ao salvar produto.' in every other case: no response,
no body, no `error` field or an empty one, whatever the body's `message`
holds. -/
theorem handleSubmit_failure (parseFloat : Valor → JSNum) (api : Api) (s : Estado)
    (err : Erro)
    (hnome : truthyStr s.formData.nome = true)
    (hpreco : (parseFloat s.formData.preco).gtZero = true)
    (hfalha : chamadaSalvar parseFloat api s = .falha err) :
    (handleSubmit parseFloat api s).1.produtos = s.produtos ∧
    (handleSubmit parseFloat api s).1.produtoEditando = s.produtoEditando ∧
    (handleSubmit parseFloat api s).1.formData = s.formData ∧
    (∀ m, (err.response.bind (fun r => r.data)).bind (fun d => d.error) = some m → m ≠ "" →
      (handleSubmit parseFloat api s).1.error = some m) ∧
    (((err.response.bind (fun r => r.data)).bind (fun d => d.error) = none ∨
      (err.response.bind (fun r => r.data)).bind (fun d => d.error) = some "") →
      (handleSubmit parseFloat api s).1.error = some "Erro ao salvar produto.") := by
  rw [handleSubmit_falha_estado parseFloat api s err hnome hpreco hfalha]
  refine ⟨rfl, rfl, rfl, ?_, ?_⟩
  · intro m h hm
    simp [mensagemSalvar_detalhe err m h hm]
  · intro h
    simp [mensagemSalvar_generica err h]

theorem handleSubmit_failure_witness :
    (handleSubmit parseFloatAmostra
        (apiRecusa 400 (some { error := some "nome duplicado", message := none }))
        estadoEditando).1.error = some "nome duplicado" ∧
    (handleSubmit parseFloatAmostra
        (apiRecusa 400 (some { error := some "nome duplicado", message := none }))
        estadoEditando).1.produtos = [caneta, lapis] ∧
    (handleSubmit parseFloatAmostra
        (apiRecusa 400 (some { error := some "nome duplicado", message := none }))
        estadoEditando).1.produtoEditando = some caneta ∧
    (handleSubmit parseFloatAmostra
        (apiRecusa 400 (some { error := some "nome duplicado", message := none }))
        estadoEditando).1.formData
      = { nome := some "Caneta azul", descricao := none, preco := .texto "3" } ∧
    (handleSubmit parseFloatAmostra (apiRecusa 500 none) estadoRascunho).1.error
      = some "Erro ao salvar produto." :=
  have h := handleSubmit_failure parseFloatAmostra
    (apiRecusa 400 (some { error := some "nome duplicado", message := none })) estadoEditando
    { response := some { status := 400,
                         data := some { error := some "nome duplicado", message := none } },
      request := true }
    (by decide) (by simp [estadoEditando, parseFloatAmostra, JSNum.gtZero]) rfl
  have g := handleSubmit_failure parseFloatAmostra (apiRecusa 500 none) estadoRascunho
    { response := some { status := 500, data := none }, request := true }
    (by decide) (by simp [estadoRascunho, parseFloatAmostra, JSNum.gtZero]) rfl
  ⟨h.2.2.2.1 "nome duplicado" rfl (by decide), h.1, h.2.1, h.2.2.1, g.2.2.2.2 (Or.inl rfl)⟩

/-- C5: for a lower-casing that maps exactly the empty string to the empty
string, `produtosFiltrados` is the filtered view as specified: the whole
collection when the term is empty, and otherwise the sub-sequence, in the
collection's order, of exactly the products whose name or description contains
the term after both are lower-cased. It is a function of the collection and
the term and writes nothing. -/
theorem produtosFiltrados_spec (toLowerCase : String → String)
    (hlow : ∀ t, toLowerCase t = "" ↔ t = "")
    (produtos : List Produto) (termoBusca : String) :
    produtosFiltrados toLowerCase produtos termoBusca
      = filtroEspecificado toLowerCase produtos termoBusca ∧
    (termoBusca = "" → produtosFiltrados toLowerCase produtos termoBusca = produtos) ∧
    List.Sublist (produtosFiltrados toLowerCase produtos termoBusca) produtos ∧
    (termoBusca ≠ "" → ∀ p, p ∈ produtosFiltrados toLowerCase produtos termoBusca ↔
      p ∈ produtos ∧ (contemTermo toLowerCase p.nome termoBusca = true ∨
                      contemTermo toLowerCase p.descricao termoBusca = true)) := by
  by_cases h : termoBusca = ""
  · simp [produtosFiltrados, filtroEspecificado, h]
  · have hf : casaTermo toLowerCase termoBusca
        = fun p => (contemTermo toLowerCase p.nome termoBusca ||
                    contemTermo toLowerCase p.descricao termoBusca) :=
      funext (casaTermo_eq_contem toLowerCase hlow termoBusca h)
    refine ⟨?_, ?_, ?_, ?_⟩
    · simp [produtosFiltrados, filtroEspecificado, h, hf]
    · intro h2; exact absurd h2 h
    · simp [produtosFiltrados, h]
    · intro _ p
      simp [produtosFiltrados, h, hf]

theorem produtosFiltrados_spec_witness :
    produtosFiltrados toLowerAscii [caneta] "CAN" = [caneta] ∧
    produtosFiltrados toLowerAscii [caneta] "xyz" = [] ∧
    produtosFiltrados toLowerAscii [caneta] "" = [caneta] ∧
    filtroEspecificado toLowerAscii [caneta] "CAN" = [caneta] ∧
    filtroEspecificado toLowerAscii [caneta] "xyz" = [] := by
  have h1 := (produtosFiltrados_spec toLowerAscii toLowerAscii_vazio [caneta] "CAN").1
  have h2 := (produtosFiltrados_spec toLowerAscii toLowerAscii_vazio [caneta] "xyz").1
  have h3 := (produtosFiltrados_spec toLowerAscii toLowerAscii_vazio [caneta] "").2.1 rfl
  have c1 : (contemTermo toLowerAscii caneta.nome "CAN" ||
      contemTermo toLowerAscii caneta.descricao "CAN") = true := by decide
  have e1 : filtroEspecificado toLowerAscii [caneta] "CAN" = [caneta] := by
    simp [filtroEspecificado, c1]
  have e2 : filtroEspecificado toLowerAscii [caneta] "xyz" = [] := by decide
  exact ⟨h1.trans e1, h2.trans e2, h3, e1, e2⟩

/-- C8, as the code refutes it: a product save answered with HTTP 400 and the
body `{message: "preço inválido"}`, which has a `message` and no `error`, shows
the generic 'Erro ao salvar produto.' and not the body's message. -/
theorem save_ignores_message_field :
    (handleSubmit parseFloatAmostra
        (apiRecusa 400 (some { error := none, message := some "preço inválido" }))
        estadoRascunho).1.error = some "Erro ao salvar produto." ∧
    (handleSubmit parseFloatAmostra
        (apiRecusa 400 (some { error := none, message := some "preço inválido" }))
        estadoRascunho).1.error ≠ some "preço inválido" ∧
    (handleSubmit parseFloatAmostra
        (apiRecusa 400 (some { error := none, message := some "preço inválido" }))
        estadoRascunho).2
      = [.postProdutos { nome := some "Borracha", descricao := some "", preco := .fin 3 }] := by
  have hst := handleSubmit_falha_estado parseFloatAmostra
    (apiRecusa 400 (some { error := none, message := some "preço inválido" })) estadoRascunho
    { response := some { status := 400,
                         data := some { error := none, message := some "preço inválido" } },
      request := true }
    (by decide) (by simp [estadoRascunho, parseFloatAmostra, JSNum.gtZero]) rfl
  refine ⟨?_, ?_, ?_⟩
  · rw [hst]; rfl
  · rw [hst]; decide
  · simp [handleSubmit, estadoRascunho, estadoCarregado, dadosProduto, parseFloatAmostra,
      JSNum.orZero, JSNum.truthy, JSNum.leZero, truthyStr, apiRecusa]
    norm_num

/-- C8, amended: each call reads its own field of a non-2xx response. The login
shows the body's `message` when it is present and non-empty and 'Credenciais
inválidas.' otherwise; a product save shows the body's `error` when it is
present and non-empty and 'Erro ao salvar produto.' otherwise; a failed list
fetch and a failed delete show their fixed messages whatever the body holds. -/
theorem error_message_per_call :
    (∀ (login : String → String → String → Resultado Unit) (s : LoginEstado)
        (r : RespostaErro) (req : Bool),
      s.codigo ≠ "" → s.nome ≠ "" → s.password ≠ "" →
      login s.codigo s.nome s.password = .falha { response := some r, request := req } →
      (∀ m, r.data.bind (fun d => d.message) = some m → m ≠ "" →
        (LoginForm.handleSubmit login s).estado.error = m) ∧
      ((r.data.bind (fun d => d.message) = none ∨ r.data.bind (fun d => d.message) = some "") →
        (LoginForm.handleSubmit login s).estado.error = "Credenciais inválidas.")) ∧
    (∀ (api : Api) (s : Estado) (err : Erro), api.get = .falha err →
      (fetchProdutos api s).1.error
        = some "Não foi possível carregar os produtos. Verifique o back-end.") ∧
    (∀ (parseFloat : Valor → JSNum) (api : Api) (s : Estado) (r : RespostaErro) (req : Bool),
      truthyStr s.formData.nome = true → (parseFloat s.formData.preco).gtZero = true →
      chamadaSalvar parseFloat api s = .falha { response := some r, request := req } →
      (∀ m, r.data.bind (fun d => d.error) = some m → m ≠ "" →
        (handleSubmit parseFloat api s).1.error = some m) ∧
      ((r.data.bind (fun d => d.error) = none ∨ r.data.bind (fun d => d.error) = some "") →
        (handleSubmit parseFloat api s).1.error = some "Erro ao salvar produto.")) ∧
    (∀ (api : Api) (id : Nat) (s : Estado) (err : Erro), api.delete id = .falha err →
      (handleDelete true api id s).1.error = some "Erro ao excluir produto.") := by
  refine ⟨?_, ?_, ?_, ?_⟩
  · intro login s r req hc hn hp hl
    constructor
    · intro m hm hne
      simp [LoginForm.handleSubmit, hc, hn, hp, hl, LoginForm.errorMessage, hm, hne]
    · intro h
      rcases h with h | h <;>
        simp [LoginForm.handleSubmit, hc, hn, hp, hl, LoginForm.errorMessage, h]
  · intro api s err h
    simp [fetchProdutos, h]
  · intro parseFloat api s r req hnome hpreco hf
    rw [handleSubmit_falha_estado parseFloat api s _ hnome hpreco hf]
    constructor
    · intro m hm hne
      have := mensagemSalvar_detalhe { response := some r, request := req } m (by simpa using hm)
        hne
      simp [this]
    · intro h
      have := mensagemSalvar_generica { response := some r, request := req } (by simpa using h)
      simp [this]
  · intro api id s err h
    simp [handleDelete, h]

theorem error_message_per_call_witness :
    (LoginForm.handleSubmit loginRecusa loginPreenchido).estado.error = "Senha incorreta" ∧
    (fetchProdutos (apiRecusa 500 (some { error := some "caiu", message := none }))
        estadoInicial).1.error
      = some "Não foi possível carregar os produtos. Verifique o back-end." ∧
    (handleSubmit parseFloatAmostra
        (apiRecusa 400 (some { error := some "nome duplicado", message := some "ignorada" }))
        estadoRascunho).1.error = some "nome duplicado" ∧
    (handleDelete true (apiRecusa 404 (some { error := some "sumiu", message := none })) 1
        estadoCarregado).1.error = some "Erro ao excluir produto." :=
  ⟨(error_message_per_call.1 loginRecusa
      loginPreenchido _ true (by decide) (by decide) (by decide) rfl).1
      "Senha incorreta" rfl (by decide),
   error_message_per_call.2.1 _ estadoInicial _ rfl,
   (error_message_per_call.2.2.1 parseFloatAmostra
      (apiRecusa 400 (some { error := some "nome duplicado", message := some "ignorada" }))
      estadoRascunho _ true (by decide)
      (by simp [estadoRascunho, parseFloatAmostra, JSNum.gtZero]) rfl).1
      "nome duplicado" rfl (by decide),
   error_message_per_call.2.2.2 _ 1 estadoCarregado _ rfl⟩

/-- C10, as the code refutes it: from a state with no edit target and an empty
draft, `iniciarEdicao(caneta)` followed by typing a new name reaches a state
whose edit target is still `caneta` while the draft's name is no longer the
target's. -/
theorem draft_diverges_from_edit_target :
    estadoCarregado.produtoEditando = none ∧ estadoCarregado.formData = formVazio ∧
    (executar parseFloatAmostra estadoCarregado
        [.iniciarEdicao caneta, .handleFormChange .nome "Caneta azul"]).produtoEditando
      = some caneta ∧
    (executar parseFloatAmostra estadoCarregado
        [.iniciarEdicao caneta, .handleFormChange .nome "Caneta azul"]).formData.nome
      = some "Caneta azul" ∧
    (executar parseFloatAmostra estadoCarregado
        [.iniciarEdicao caneta, .handleFormChange .nome "Caneta azul"]).formData.nome
      ≠ caneta.nome := by
  refine ⟨rfl, rfl, rfl, rfl, ?_⟩
  decide

/-- C10, amended: `iniciarEdicao(p)` makes `p` the edit target and copies its
name, description and price into the draft; `handleFormChange(name, value)`
then sets the named field of the draft to the typed text, keeps the other two
fields and leaves the edit target alone; and whenever one of the five
operations takes the state from an edit target set to none set, the draft it
leaves is the empty one. The state holds one optional edit target. -/
theorem edit_session_steps (parseFloat : Valor → JSNum) (s : Estado) :
    (∀ p : Produto,
      (aplicar parseFloat s (.iniciarEdicao p)).produtoEditando = some p ∧
      (aplicar parseFloat s (.iniciarEdicao p)).formData
        = { nome := p.nome, descricao := p.descricao, preco := p.preco }) ∧
    (∀ value : String,
      (aplicar parseFloat s (.handleFormChange .nome value)).formData
        = { nome := some value, descricao := s.formData.descricao,
            preco := s.formData.preco } ∧
      (aplicar parseFloat s (.handleFormChange .descricao value)).formData
        = { nome := s.formData.nome, descricao := some value, preco := s.formData.preco } ∧
      (aplicar parseFloat s (.handleFormChange .preco value)).formData
        = { nome := s.formData.nome, descricao := s.formData.descricao,
            preco := .texto value }) ∧
    (∀ (name : Campo) (value : String),
      (aplicar parseFloat s (.handleFormChange name value)).produtoEditando
        = s.produtoEditando) ∧
    (∀ a : Acao, s.produtoEditando ≠ none → (aplicar parseFloat s a).produtoEditando = none →
      (aplicar parseFloat s a).formData = formVazio) := by
  refine ⟨fun p => ⟨rfl, rfl⟩, fun value => ⟨rfl, rfl, rfl⟩, ?_, ?_⟩
  · intro name value
    cases name <;> rfl
  · intro a hs ha
    cases a with
    | iniciarEdicao p => simp [aplicar, iniciarEdicao] at ha
    | cancelarEdicao => rfl
    | handleFormChange name value =>
      cases name <;> exact absurd ha hs
    | handleSubmit api =>
      obtain ⟨alvo, halvo⟩ := Option.ne_none_iff_exists'.mp hs
      simp only [aplicar, handleSubmit, halvo] at ha ⊢
      by_cases hg : (!truthyStr (dadosProduto parseFloat s.formData).nome ||
          (dadosProduto parseFloat s.formData).preco.leZero) = true
      · simp [hg, halvo] at ha
      · cases hput : api.put alvo.id (dadosProduto parseFloat s.formData) with
        | ok data => simp [hg, hput, cancelarEdicao]
        | falha err => simp [hg, hput, halvo] at ha
    | handleDelete confirm api id =>
      exfalso
      apply hs
      cases confirm with
      | false => simpa [aplicar, handleDelete] using ha
      | true =>
        cases hd : api.delete id <;> simpa [aplicar, handleDelete, hd] using ha

theorem edit_session_steps_witness :
    (aplicar parseFloatAmostra estadoEditando .cancelarEdicao).formData = formVazio ∧
    (aplicar parseFloatAmostra estadoEditando (.handleSubmit (apiAceita 3))).formData
      = formVazio ∧
    (aplicar parseFloatAmostra estadoEditando (.handleFormChange .descricao "azul")).formData
      = { nome := some "Caneta azul", descricao := some "azul", preco := .texto "3" } ∧
    (aplicar parseFloatAmostra estadoEditando (.handleFormChange .preco "4")).produtoEditando
      = some caneta :=
  ⟨(edit_session_steps parseFloatAmostra estadoEditando).2.2.2 .cancelarEdicao (by decide) rfl,
   (edit_session_steps parseFloatAmostra estadoEditando).2.2.2 (.handleSubmit (apiAceita 3))
      (by decide)
      (by simp [aplicar, handleSubmit, estadoEditando, estadoCarregado, dadosProduto,
            parseFloatAmostra, JSNum.orZero, JSNum.truthy, JSNum.leZero, truthyStr, apiAceita,
            cancelarEdicao]
          norm_num),
   ((edit_session_steps parseFloatAmostra estadoEditando).2.1 "azul").2.1,
   (edit_session_steps parseFloatAmostra estadoEditando).2.2.1 .preco "4"⟩

/-- C1, evaluated on the code: with `caneta` being edited, a confirmed and
successful `handleDelete(1)` removes `caneta` from the collection and leaves
the edit target pointing at it and the draft as it was. -/
theorem handleDelete_leaves_edit_target :
    (handleDelete true (apiAceita 3) caneta.id estadoEditando).1.produtos = [lapis] ∧
    (handleDelete true (apiAceita 3) caneta.id estadoEditando).1.produtoEditando
      = some caneta ∧
    (handleDelete true (apiAceita 3) caneta.id estadoEditando).1.formData
      = estadoEditando.formData ∧
    (handleDelete true (apiAceita 3) caneta.id estadoEditando).1.formData ≠ formVazio ∧
    (∀ p ∈ (handleDelete true (apiAceita 3) caneta.id estadoEditando).1.produtos,
      p.id ≠ caneta.id) := by
  refine ⟨by decide, rfl, rfl, by decide, ?_⟩
  intro p hp
  have h : (handleDelete true (apiAceita 3) caneta.id estadoEditando).1.produtos = [lapis] := by
    decide
  rw [h] at hp
  simp at hp
  subst hp
  decide

end Treko
